import Mathlib

/-!
# csvgraph — shallow embedding and verification

A shallow embedding of the csvgraph single-page CSV-plotting tool
(`src/unnamed/part_000`, together with the second variant contained in
`src/src/App.jsx`), and theorems settling the frozen claims about its
natural-language specification.

JavaScript numbers are modelled as rationals (`ℚ`); every value that can
sit in a parsed CSV cell is a `JsValue` (a number, a text cell, or the
`undefined` produced by reading an absent key).  Rows are association
lists from field names to cells, mirroring JS objects.  The React
component's mutable state is an explicit `AppState` record, and each
event handler is a function on it; `alert` is modelled as an optional
message returned next to the new state.
-/

/-- A value held in a parsed CSV cell: a JS number, a text cell, or
`undefined` (the result of reading a key a row does not have). -/
inductive JsValue where
  | num (q : ℚ)
  | str (s : String)
  | undefined
deriving DecidableEq, Repr

/-- Numeric value of a digit list; `none` unless non-empty and all digits. -/
def digitsVal (cs : List Char) : Option ℕ :=
  if cs ≠ [] ∧ cs.all Char.isDigit then
    some (cs.foldl (fun a c => a * 10 + (c.toNat - 48)) 0)
  else none

/-- Unsigned decimal literal: digits with an optional fractional part
(`"1"`, `"1."`, `".5"`, `"1.5"`); `none` on anything else. -/
def parseUnsigned (cs : List Char) : Option ℚ :=
  let intPart := cs.takeWhile (· ≠ '.')
  match cs.dropWhile (· ≠ '.') with
  | [] => (digitsVal intPart).map (fun n => (n : ℚ))
  | '.' :: fracPart =>
    if (intPart ++ fracPart) ≠ [] ∧ (intPart ++ fracPart).all Char.isDigit then
      some ((intPart.foldl (fun a c => a * 10 + (c.toNat - 48)) 0 : ℕ)
        + (fracPart.foldl (fun a c => a * 10 + (c.toNat - 48)) 0 : ℕ)
          / (10 : ℚ) ^ fracPart.length)
    else none
  | _ :: _ => none

/-- JS string-to-number coercion (`Number(s)`, and the coercion implicit
in `isNaN(s)`) modelled for plain decimal literals: surrounding blanks
are trimmed, the empty string coerces to `0`, an optional sign precedes
the digits; strings that are not decimal literals give `none` (NaN). -/
def strToNum (s : String) : Option ℚ :=
  let cs := ((s.toList.dropWhile (· = ' ')).reverse.dropWhile (· = ' ')).reverse
  match cs with
  | [] => some 0
  | '-' :: rest => (parseUnsigned rest).map (fun q => -q)
  | '+' :: rest => parseUnsigned rest
  | _ => parseUnsigned cs

/-- Numeric interpretation of a cell: `some q` exactly when JS `isNaN`
on it is false, in which case arithmetic on the cell uses `q`.
`undefined` is NaN. -/
def numValue (v : JsValue) : Option ℚ :=
  match v with
  | .num q => some q
  | .str s => strToNum s
  | .undefined => none

/-- A parsed CSV row: a JS object as an association list from field
names to cells. -/
abbrev Row := List (String × JsValue)

/-- JS property read `row[key]`: the first binding of `key`, or
`undefined` when the row has no such key. -/
def rowGet (row : Row) (key : String) : JsValue :=
  match row.find? (fun kv => kv.1 == key) with
  | some kv => kv.2
  | none => .undefined

/-- `fieldName.toLowerCase()` on the ASCII letters appearing in this
program's field names. -/
def jsToLower (s : String) : String :=
  ⟨s.toList.map (fun c =>
    if 'A' ≤ c ∧ c ≤ 'Z' then Char.ofNat (c.toNat + 32) else c)⟩

/-- Whether `pat` occurs at the start of `s`. -/
def charsHaveStart (s pat : List Char) : Bool :=
  match s, pat with
  | _, [] => true
  | [], _ :: _ => false
  | a :: as, b :: bs => a == b && charsHaveStart as bs

/-- Whether `pat` occurs contiguously anywhere in `s`. -/
def charsContain (s pat : List Char) : Bool :=
  match s with
  | [] => pat.isEmpty
  | _ :: rest => charsHaveStart s pat || charsContain rest pat

/-- JS `s.includes(pat)`: substring containment. -/
def strIncludes (s pat : String) : Bool :=
  charsContain s.toList pat.toList

/-- `isPercentageField` (identical in `src/unnamed/part_000` lines 15–18
and `src/src/App.jsx` lines 177–180): the lower-cased field name
contains `"percent"` or `"%"`. -/
def isPercentageField (fieldName : String) : Bool :=
  let lowerFieldName := jsToLower fieldName
  strIncludes lowerFieldName "percent" || strIncludes lowerFieldName "%"

/-- `calculateScalingFactor` from `src/unnamed/part_000` (lines 20–29). -/
def calculateScalingFactor (maxValue : ℚ) (fieldName : String) : ℚ :=
  if isPercentageField fieldName then 0.01
  else if maxValue = 0 then 1
  else if maxValue ≥ 1000 then 0.001
  else if maxValue > 100 ∧ maxValue ≤ 1000 then 0.001
  else if maxValue > 50 ∧ maxValue ≤ 100 then 0.01
  else if maxValue > 10 ∧ maxValue ≤ 50 then 0.1
  else if maxValue > 1 ∧ maxValue ≤ 10 then 1
  else 1

/-- `calculateScalingFactor` from the second variant in
`src/src/App.jsx` (lines 182–192); its buckets inside the 100–1000
range differ from `part_000`'s. -/
def calculateScalingFactorB (maxValue : ℚ) (fieldName : String) : ℚ :=
  if isPercentageField fieldName then 0.01
  else if maxValue = 0 then 1
  else if maxValue ≥ 1000 then 0.001
  else if maxValue > 500 ∧ maxValue ≤ 1000 then 0.001
  else if maxValue > 100 ∧ maxValue ≤ 500 then 0.01
  else if maxValue > 50 ∧ maxValue ≤ 100 then 0.01
  else if maxValue > 10 ∧ maxValue ≤ 50 then 0.1
  else if maxValue > 1 ∧ maxValue ≤ 10 then 1
  else 1

/-- The character for a decimal digit. -/
def digitChar (n : ℕ) : Char := Char.ofNat (48 + n % 10)

/-- Decimal digits of a natural number (fuel-driven division loop). -/
def natToStrAux : ℕ → ℕ → List Char
  | 0, _ => []
  | fuel + 1, n =>
    if n < 10 then [digitChar n] else natToStrAux fuel (n / 10) ++ [digitChar (n % 10)]

/-- Base-10 rendering of a natural number, as JS `toString` prints it. -/
def natToStr (n : ℕ) : String := ⟨natToStrAux (n + 1) n⟩

/-- Digits after the decimal point of `fr / d` (`0 < fr < d`), stopping
when the remainder vanishes; fuel bounds the loop. -/
def fracDigits : ℕ → ℕ → ℕ → String
  | 0, _, _ => ""
  | fuel + 1, fr, d =>
    if fr = 0 then "" else natToStr (fr * 10 / d) ++ fracDigits fuel (fr * 10 % d) d

/-- JS number-to-string conversion as it behaves on the program's
enumerated scaling factors and their inverses (exact short decimals):
integer part, then the fractional digits without trailing zeros. -/
def jsNumberToString (q : ℚ) : String :=
  (if q < 0 then "-" else "")
    ++ natToStr (q.num.natAbs / q.den)
    ++ (if q.num.natAbs % q.den = 0 then ""
        else "." ++ fracDigits 20 (q.num.natAbs % q.den) q.den)

/-- `formatScalingFactor` from `src/unnamed/part_000` (lines 90–93,
identical in the second `App.jsx` variant, lines 254–257): the empty
suffix at factor 1, otherwise a textual ` / (1/factor)` suffix. -/
def formatScalingFactor (factor : ℚ) : String :=
  if factor = 1 then "" else " / " ++ jsNumberToString (1 / factor)

/-- `scalingFactors[field] || 1`: the stored factor of a field, with
JS-falsy results (an absent key, or a stored 0) replaced by 1. -/
def lookupFactor (scalingFactors : List (String × ℚ)) (field : String) : ℚ :=
  match scalingFactors.find? (fun kv => kv.1 == field) with
  | some kv => if kv.2 = 0 then 1 else kv.2
  | none => 1

/-- One plotly trace as built by `generateGraph`: the independently
produced `x` and `y` arrays, the constant mode, and the label. -/
structure Series where
  x : List ℚ
  y : List ℚ
  mode : String
  name : String
deriving DecidableEq, Repr

/-- The body of `selectedFields.map(...)` in `generateGraph`
(`src/unnamed/part_000` lines 103–111): the x array keeps the rows whose
X cell is numeric, the y array — independently — the rows whose cell in
`field` is numeric; each surviving cell is multiplied by its axis
factor, and the label is the field name with the scaling suffix. -/
def buildTrace (csvData : List Row) (scalingFactors : List (String × ℚ))
    (xAxisField : String) (xFactor : ℚ) (field : String) : Series :=
  let yFactor := lookupFactor scalingFactors field
  { x := csvData.filterMap (fun row => (numValue (rowGet row xAxisField)).map (· * xFactor))
    y := csvData.filterMap (fun row => (numValue (rowGet row field)).map (· * yFactor))
    mode := "lines"
    name := field ++ formatScalingFactor yFactor }

/-- The `plotData` computed by `generateGraph`: one trace per selected
field, in selection order. -/
def generatePlotData (csvData : List Row) (selectedFields : List String)
    (scalingFactors : List (String × ℚ)) (xAxisField : String) (xFactor : ℚ) : List Series :=
  selectedFields.map (buildTrace csvData scalingFactors xAxisField xFactor)

/-- Index-paired points of a trace, as plotly draws them. -/
def seriesPoints (s : Series) : List (ℚ × ℚ) := s.x.zip s.y

/-- The component's state variables (`useState` hooks of `App`). -/
structure AppState where
  csvData : List Row
  fields : List String
  selectedFields : List String
  scalingFactors : List (String × ℚ)
  data : List Series
  xAxisField : String
  xAxisScalingFactor : ℚ
  showForm : Bool
  fileName : String
deriving DecidableEq

/-- `generateGraph` (`src/unnamed/part_000` lines 95–115): with no X
field chosen (`xAxisField` is the falsy empty string) it alerts and
returns with the state untouched; otherwise it stores the plot data and
leaves the form.  The second component is the `alert` message, if any. -/
def generateGraph (s : AppState) : AppState × Option String :=
  if s.xAxisField = "" then (s, some "Please select an X-Axis field.")
  else
    ({ s with
        data := generatePlotData s.csvData s.selectedFields s.scalingFactors
          s.xAxisField s.xAxisScalingFactor
        showForm := false }, none)

/-- `handleXAxisFieldChange` (`src/unnamed/part_000` lines 85–88): set
the X field and take over its stored scaling factor (or 1). -/
def handleXAxisFieldChange (s : AppState) (field : String) : AppState :=
  { s with xAxisField := field
           xAxisScalingFactor := lookupFactor s.scalingFactors field }

/-- `handleFieldChange` (lines 71–75): toggle a field in the Y
selection. -/
def handleFieldChange (s : AppState) (field : String) : AppState :=
  { s with selectedFields :=
      if s.selectedFields.contains field then s.selectedFields.filter (fun f => f ≠ field)
      else s.selectedFields ++ [field] }

/-- Object-spread update `{ ...prev, [field]: factor }`. -/
def setFactor (m : List (String × ℚ)) (field : String) (factor : ℚ) : List (String × ℚ) :=
  if m.any (fun kv => kv.1 == field) then
    m.map (fun kv => if kv.1 == field then (kv.1, factor) else kv)
  else m ++ [(field, factor)]

/-- `handleScalingChange` (lines 77–83). -/
def handleScalingChange (s : AppState) (field : String) (factor : ℚ) : AppState :=
  if field = s.xAxisField then { s with xAxisScalingFactor := factor }
  else { s with scalingFactors := setFactor s.scalingFactors field factor }

/-- One parsed cell re-typed by the upload loop:
`newRow[key] = isNaN(row[key]) ? row[key] : Number(row[key])`. -/
def convertCell (v : JsValue) : JsValue :=
  match numValue v with
  | some q => .num q
  | none => v

/-- The per-row conversion in the `complete` callback (lines 49–55). -/
def convertRow (row : Row) : Row := row.map (fun kv => (kv.1, convertCell kv.2))

/-- `Math.max(...args)` over the coerced column values.  JS yields
`-Infinity` on an empty argument list; the callers below never reach the
empty case (an empty dataset crashes first), so it is mapped to 0. -/
def jsMathMax : List ℚ → ℚ
  | [] => 0
  | a :: rest => rest.foldl max a

/-- `Math.max(...csvData.map(row => isNaN(row[field]) ? 0 : row[field]))`
(line 63): the signed maximum of the column with every non-numeric cell
read as 0. -/
def fieldMaxValue (csvData : List Row) (field : String) : ℚ :=
  jsMathMax (csvData.map (fun row =>
    match numValue (rowGet row field) with
    | some q => q
    | none => 0))

/-- Result of the upload callback: either the crash of an unguarded
`Object.keys(csvData[0])` on an empty parse, or the populated dataset,
field list and seeded scaling factors. -/
inductive UploadOutcome where
  | crash
  | ok (csvData : List Row) (fields : List String) (scalingFactors : List (String × ℚ))
deriving DecidableEq

/-- The `complete` callback of `Papa.parse` in `handleFileUpload`
(`src/unnamed/part_000` lines 48–67): re-type every cell, read the field
names from `Object.keys(csvData[0])` — when the parse produced no rows
this dereferences `undefined` and throws (`crash`) — then seed every
field's scaling factor from its observed maximum. -/
def handleUploadComplete (parsed : List Row) : UploadOutcome :=
  match parsed.map convertRow with
  | [] => .crash
  | firstRow :: rest =>
    let csvData := firstRow :: rest
    let fieldNames := firstRow.map (fun kv => kv.1)
    .ok csvData fieldNames
      (fieldNames.map (fun field =>
        (field, calculateScalingFactor (fieldMaxValue csvData field) field)))

/-- The specification's "maximum absolute value observed among that
field's numeric cells" (claim C3's wording), stated for comparison with
the code's `fieldMaxValue`. -/
def specMaxAbsValue (csvData : List Row) (field : String) : ℚ :=
  jsMathMax (csvData.filterMap (fun row => (numValue (rowGet row field)).map (fun q => |q|)))

/-- The raw numeric content of a cell (0 on non-numeric cells; only read
under a hypothesis that the cell is numeric). -/
def rawNum (v : JsValue) : ℚ :=
  match v with
  | .num q => q
  | _ => 0

/-- First row of claim C1's example dataset `[{x:1,y:"a"},{x:2,y:5}]`. -/
def c1Row1 : Row := [("x", .num 1), ("y", .str "a")]

/-- Second row of claim C1's example dataset. -/
def c1Row2 : Row := [("x", .num 2), ("y", .num 5)]

/-- A variant of claim C1's dataset with an extra wholly non-numeric
column `g`, agreeing with it cell-wise on the `x` and `y` columns. -/
def c1RowsG : List Row :=
  [[("x", .num 1), ("y", .str "a"), ("g", .str "n/a")],
   [("x", .num 2), ("y", .num 5), ("g", .str "n/a")]]

/-- The dataset of claim C3's counterexample: one field `f` with cells
−5000 and 2, whose signed maximum (2) and maximum absolute value (5000)
fall in different scaling buckets. -/
def c3Parsed : List Row := [[("f", .num (-5000))], [("f", .num 2)]]

/-- A concrete pre-generate state with no X-axis selection but a prior
chart, exercising claim C6. -/
def c6State : AppState :=
  { csvData := [[("t", .num 1)]]
    fields := ["t", "v"]
    selectedFields := ["v"]
    scalingFactors := [("v", 10)]
    data := [{ x := [1], y := [2], mode := "lines", name := "v" }]
    xAxisField := ""
    xAxisScalingFactor := 1
    showForm := true
    fileName := "run" }

/-- Concrete all-numeric dataset for claim C8's witness. -/
def c8Rows : List Row :=
  [[("t", .num 1), ("v", .num 10)], [("t", .num 2), ("v", .num 20)]]

/-- A concrete state whose X-axis candidate `"a"` is already a selected
Y field, exercising claim C10. -/
def c10State : AppState :=
  { csvData := [[("a", .num 3)], [("a", .num 4)]]
    fields := ["t", "a"]
    selectedFields := ["a"]
    scalingFactors := []
    data := []
    xAxisField := ""
    xAxisScalingFactor := 1
    showForm := true
    fileName := "t" }

theorem formatScalingFactor_one : formatScalingFactor 1 = "" := by
  unfold formatScalingFactor
  rw [if_pos rfl]

theorem formatScalingFactor_inv100 : formatScalingFactor 0.01 = " / 100" := by
  unfold formatScalingFactor
  rw [if_neg (by norm_num), show (1 : ℚ) / 0.01 = 100 by norm_num]
  unfold jsNumberToString
  norm_num
  decide

theorem formatScalingFactor_inv1000 : formatScalingFactor 0.001 = " / 1000" := by
  unfold formatScalingFactor
  rw [if_neg (by norm_num), show (1 : ℚ) / 0.001 = 1000 by norm_num]
  unfold jsNumberToString
  norm_num
  decide

theorem formatScalingFactor_inv10 : formatScalingFactor 0.1 = " / 10" := by
  unfold formatScalingFactor
  rw [if_neg (by norm_num), show (1 : ℚ) / 0.1 = 10 by norm_num]
  unfold jsNumberToString
  norm_num
  decide

theorem formatScalingFactor_tenth : formatScalingFactor 10 = " / 0.1" := by
  unfold formatScalingFactor
  rw [if_neg (by norm_num), show (1 : ℚ) / 10 = 1 / 10 by norm_num]
  unfold jsNumberToString
  norm_num
  decide

theorem formatScalingFactor_hundredth : formatScalingFactor 100 = " / 0.01" := by
  unfold formatScalingFactor
  rw [if_neg (by norm_num)]
  unfold jsNumberToString
  norm_num
  decide

theorem formatScalingFactor_thousandth : formatScalingFactor 1000 = " / 0.001" := by
  unfold formatScalingFactor
  rw [if_neg (by norm_num)]
  unfold jsNumberToString
  norm_num
  decide

/-- C7: at factor 1 the series label is exactly the field name (empty
suffix); at every other enumerated scaling factor the label carries the
suffix showing the inverse factor — 0.001 → " / 1000", 0.01 → " / 100",
0.1 → " / 10", 10 → " / 0.1", 100 → " / 0.01", 1000 → " / 0.001". -/
theorem seriesLabel_enumerated (field : String) :
    field ++ formatScalingFactor 1 = field ∧
    field ++ formatScalingFactor 0.001 = field ++ " / 1000" ∧
    field ++ formatScalingFactor 0.01 = field ++ " / 100" ∧
    field ++ formatScalingFactor 0.1 = field ++ " / 10" ∧
    field ++ formatScalingFactor 10 = field ++ " / 0.1" ∧
    field ++ formatScalingFactor 100 = field ++ " / 0.01" ∧
    field ++ formatScalingFactor 1000 = field ++ " / 0.001" := by
  refine ⟨?_, ?_, ?_, ?_, ?_, ?_, ?_⟩ <;>
    simp [formatScalingFactor_one, formatScalingFactor_inv1000,
      formatScalingFactor_inv100, formatScalingFactor_inv10,
      formatScalingFactor_tenth, formatScalingFactor_hundredth,
      formatScalingFactor_thousandth]

/-- C2: ingestion does not fail cleanly — on a parse that yields no rows
the upload callback dereferences the absent row zero
(`Object.keys(csvData[0])`) and crashes instead of reporting a
recoverable user-visible error. -/
theorem handleUploadComplete_empty_crash :
    handleUploadComplete [] = UploadOutcome.crash := rfl

/-- C4 fails as stated: for a field name containing "percent" the
percent rule fires before the zero rule, so `scale(0, "percent")` is
0.01, not 1 — in both source variants. -/
theorem scale_zero_percent_ne_one :
    calculateScalingFactor 0 "percent" = 0.01 ∧
    calculateScalingFactorB 0 "percent" = 0.01 ∧ (0.01 : ℚ) ≠ 1 :=
  ⟨by norm_num [calculateScalingFactor, show isPercentageField "percent" = true from by decide],
   by norm_num [calculateScalingFactorB, show isPercentageField "percent" = true from by decide],
   by norm_num⟩

/-- C4 amended: for every field name that is not a percentage field,
`scale(0, name)` returns 1 — in both source variants. -/
theorem scale_zero_eq_one_of_not_percent (fieldName : String)
    (h : isPercentageField fieldName = false) :
    calculateScalingFactor 0 fieldName = 1 ∧ calculateScalingFactorB 0 fieldName = 1 := by
  constructor <;> norm_num [calculateScalingFactor, calculateScalingFactorB, h]

/-- Witness for C4's amended claim at the concrete field name "foo". -/
theorem scale_zero_eq_one_of_not_percent_witness :
    isPercentageField "foo" = false ∧
    (calculateScalingFactor 0 "foo" = 1 ∧ calculateScalingFactorB 0 "foo" = 1) :=
  ⟨by decide, scale_zero_eq_one_of_not_percent "foo" (by decide)⟩

/-- C5: for every field name containing "%" or "percent" in any letter
case (the condition `isPercentageField` computes) and every maximum
value, both variants of the heuristic return 0.01; the percent rule has
priority over all magnitude buckets. -/
theorem scale_percent_priority (maxValue : ℚ) (fieldName : String)
    (h : isPercentageField fieldName = true) :
    calculateScalingFactor maxValue fieldName = 0.01 ∧
    calculateScalingFactorB maxValue fieldName = 0.01 := by
  constructor <;> simp [calculateScalingFactor, calculateScalingFactorB, h]

/-- Witness for C5 at the mixed-case name "PerCent done" and a maximum
value deep inside the ≥1000 bucket. -/
theorem scale_percent_priority_witness :
    isPercentageField "PerCent done" = true ∧
    (calculateScalingFactor 12345 "PerCent done" = 0.01 ∧
     calculateScalingFactorB 12345 "PerCent done" = 0.01) :=
  ⟨by decide, scale_percent_priority 12345 "PerCent done" (by decide)⟩

/-- C6: invoking Generate with no X-axis field selected raises the
blocking alert, aborts generation, and returns the entire state —
selection, factors, and any previously built series — unchanged. -/
theorem generateGraph_no_xAxis_aborts (s : AppState) (h : s.xAxisField = "") :
    generateGraph s = (s, some "Please select an X-Axis field.") := by
  simp [generateGraph, h]

/-- Witness for C6 on a concrete state holding a previously built
series and a non-trivial selection. -/
theorem generateGraph_no_xAxis_aborts_witness :
    generateGraph c6State = (c6State, some "Please select an X-Axis field.") :=
  generateGraph_no_xAxis_aborts c6State rfl

/-- C9: the two source variants of the scaling heuristic agree on every
input whose maximum value lies outside the open-closed interval
(100, 1000]. -/
theorem scaling_variants_agree_outside_midrange (maxValue : ℚ) (fieldName : String)
    (h : maxValue ≤ 100 ∨ 1000 < maxValue) :
    calculateScalingFactor maxValue fieldName = calculateScalingFactorB maxValue fieldName := by
  cases hp : isPercentageField fieldName with
  | true => simp [calculateScalingFactor, calculateScalingFactorB, hp]
  | false =>
    unfold calculateScalingFactor calculateScalingFactorB
    rw [hp]
    simp only [Bool.false_eq_true, if_false]
    rcases h with h | h
    · by_cases h0 : maxValue = 0
      · rw [if_pos h0, if_pos h0]
      · rw [if_neg h0, if_neg h0,
          if_neg (not_le.mpr (by linarith) : ¬maxValue ≥ 1000),
          if_neg (not_le.mpr (by linarith) : ¬maxValue ≥ 1000),
          if_neg (fun hc => absurd hc.1 (not_lt.mpr h) :
            ¬(maxValue > 100 ∧ maxValue ≤ 1000)),
          if_neg (fun hc => absurd hc.1 (not_lt.mpr (by linarith)) :
            ¬(maxValue > 500 ∧ maxValue ≤ 1000)),
          if_neg (fun hc => absurd hc.1 (not_lt.mpr h) :
            ¬(maxValue > 100 ∧ maxValue ≤ 500))]
    · have h0 : ¬maxValue = 0 := by intro h0; rw [h0] at h; norm_num at h
      rw [if_neg h0, if_neg h0,
        if_pos (le_of_lt h : maxValue ≥ 1000),
        if_pos (le_of_lt h : maxValue ≥ 1000)]

/-- Witness for C9 at the concrete input (50, "f"), below the disputed
range. -/
theorem scaling_variants_agree_outside_midrange_witness :
    ((50 : ℚ) ≤ 100 ∨ (1000 : ℚ) < 50) ∧
    calculateScalingFactor 50 "f" = calculateScalingFactorB 50 "f" :=
  ⟨Or.inl (by norm_num),
   scaling_variants_agree_outside_midrange 50 "f" (Or.inl (by norm_num))⟩

/-- C3 fails as stated: on the dataset with column f = [−5000, 2] the
code seeds factor 1 (from the signed maximum 2), while the claim's
formula `scale(maxAbsValue, f)` with maxAbsValue = 5000 gives 0.001. -/
theorem seededFactor_not_maxAbs :
    handleUploadComplete c3Parsed = .ok c3Parsed ["f"] [("f", 1)] ∧
    specMaxAbsValue c3Parsed "f" = 5000 ∧
    calculateScalingFactor 5000 "f" = 0.001 ∧ (1 : ℚ) ≠ 0.001 := by
  have hp : isPercentageField "f" = false := by decide
  have h2 : fieldMaxValue c3Parsed "f" = 2 := by
    show max (-5000 : ℚ) 2 = 2
    exact max_eq_right (by norm_num)
  have hcalc : calculateScalingFactor 2 "f" = 1 := by
    norm_num [calculateScalingFactor, hp]
  refine ⟨?_, ?_, ?_, by norm_num⟩
  · have hup : handleUploadComplete c3Parsed =
        .ok c3Parsed ["f"] [("f", calculateScalingFactor (fieldMaxValue c3Parsed "f") "f")] := rfl
    rw [hup, h2, hcalc]
  · show max |(-5000 : ℚ)| |(2 : ℚ)| = 5000
    rw [abs_of_nonpos (by norm_num), abs_of_nonneg (by norm_num)]
    exact max_eq_left (by norm_num)
  · norm_num [calculateScalingFactor, hp]

/-- C3 amended: whenever the upload succeeds, every field's seeded
factor is `calculateScalingFactor(M, field)` where M is the signed
maximum over all rows of the field's cells with each non-numeric cell
read as 0 (`fieldMaxValue`) — not the maximum absolute value among the
numeric cells. -/
theorem seededFactor_eq_fieldMaxValue (parsed csvData : List Row)
    (fields : List String) (factors : List (String × ℚ))
    (h : handleUploadComplete parsed = .ok csvData fields factors) :
    factors = fields.map (fun field =>
      (field, calculateScalingFactor (fieldMaxValue csvData field) field)) := by
  unfold handleUploadComplete at h
  split at h
  · cases h
  · cases h
    rfl

/-- Witness for C3's amended claim on the concrete dataset
`c3Parsed`. -/
theorem seededFactor_eq_fieldMaxValue_witness :
    handleUploadComplete c3Parsed = .ok c3Parsed ["f"]
      [("f", calculateScalingFactor (fieldMaxValue c3Parsed "f") "f")] ∧
    [("f", calculateScalingFactor (fieldMaxValue c3Parsed "f") "f")] =
      ["f"].map (fun field =>
        (field, calculateScalingFactor (fieldMaxValue c3Parsed field) field)) :=
  ⟨rfl, seededFactor_eq_fieldMaxValue c3Parsed c3Parsed ["f"] _ rfl⟩

theorem filterMap_eq_map_of_mem {α β : Type} (l : List α) (g : α → Option β) (h : α → β)
    (hgh : ∀ a ∈ l, g a = some (h a)) : l.filterMap g = l.map h := by
  induction l with
  | nil => rfl
  | cons a as ih =>
    rw [List.filterMap_cons_some (hgh a (List.mem_cons_self a as)), List.map_cons,
      ih (fun x hx => hgh x (List.mem_cons_of_mem a hx))]

theorem filterMap_comp_col (rows rows2 : List Row) (g : Row → JsValue)
    (k : JsValue → Option ℚ) (h : rows.map g = rows2.map g) :
    rows.filterMap (fun r => k (g r)) = rows2.filterMap (fun r => k (g r)) := by
  have h1 : (rows.map g).filterMap k = (rows2.map g).filterMap k := by rw [h]
  rw [List.filterMap_map, List.filterMap_map] at h1
  exact h1

/-- C1 fails as stated: on the example dataset `[{x:1,y:"a"},{x:2,y:5}]`
with X = x and Y = y, the built series pairs the x array [1, 2] with the
y array [5] by index, so its single plotted point is (1, 5) — pairing
row 1's X cell with row 2's Y cell — not the claimed (2, 5). -/
theorem plotData_example_crossPairing :
    (generatePlotData [c1Row1, c1Row2] ["y"] [] "x" 1).map seriesPoints = [[((1 : ℚ), (5 : ℚ))]] ∧
    [((1 : ℚ), (5 : ℚ))] ≠ [((2 : ℚ), (5 : ℚ))] := by
  have hx1 : numValue (rowGet c1Row1 "x") = some 1 := rfl
  have hx2 : numValue (rowGet c1Row2 "x") = some 2 := rfl
  have hy1 : numValue (rowGet c1Row1 "y") = none := by
    show strToNum "a" = none
    decide
  have hy2 : numValue (rowGet c1Row2 "y") = some 5 := rfl
  have hlf : lookupFactor [] "y" = 1 := rfl
  constructor
  · simp [generatePlotData, buildTrace, seriesPoints, hx1, hx2, hy1, hy2, hlf]
  · norm_num

/-- C1 amended: the x and y arrays of a series are filtered
independently — the series built for a Y field depends only on that
field's column and the X column, so a non-numeric cell excludes a value
from that field's series only, never from another field's series; points
are paired by index of the filtered arrays rather than by row, and on
the example dataset `[{x:1,y:"a"},{x:2,y:5}]` the series for y is
x = [1, 2], y = [5] — a single plotted point (1, 5). -/
theorem plotData_per_field_filtering :
    (∀ (rows rows2 : List Row) (scal : List (String × ℚ)) (xF : String) (xFac : ℚ) (f : String),
      rows.map (fun r => rowGet r f) = rows2.map (fun r => rowGet r f) →
      rows.map (fun r => rowGet r xF) = rows2.map (fun r => rowGet r xF) →
      buildTrace rows scal xF xFac f = buildTrace rows2 scal xF xFac f) ∧
    buildTrace [c1Row1, c1Row2] [] "x" 1 "y" =
      { x := [1, 2], y := [5], mode := "lines", name := "y" } := by
  constructor
  · intro rows rows2 scal xF xFac f hf hx
    simp only [buildTrace, Series.mk.injEq]
    refine ⟨?_, ?_, by trivial, by trivial⟩
    · exact filterMap_comp_col rows rows2 (fun r => rowGet r xF)
        (fun v => (numValue v).map (· * xFac)) hx
    · exact filterMap_comp_col rows rows2 (fun r => rowGet r f)
        (fun v => (numValue v).map (· * lookupFactor scal f)) hf
  · have hx1 : numValue (rowGet c1Row1 "x") = some 1 := rfl
    have hx2 : numValue (rowGet c1Row2 "x") = some 2 := rfl
    have hy1 : numValue (rowGet c1Row1 "y") = none := by
      show strToNum "a" = none
      decide
    have hy2 : numValue (rowGet c1Row2 "y") = some 5 := rfl
    have hlf : lookupFactor [] "y" = 1 := rfl
    simp [buildTrace, hx1, hx2, hy1, hy2, hlf, formatScalingFactor_one]

/-- Witness for C1's amended claim: adding a wholly non-numeric extra
column `g` leaves the series built for y untouched. -/
theorem plotData_per_field_filtering_witness :
    buildTrace [c1Row1, c1Row2] [] "x" 1 "y" = buildTrace c1RowsG [] "x" 1 "y" :=
  plotData_per_field_filtering.1 [c1Row1, c1Row2] c1RowsG [] "x" 1 "y" rfl rfl

/-- C8: on a dataset all of whose relevant cells are numeric, building
with factor 1 on the X axis and on every selected Y field reproduces the
raw columns exactly — the i-th point of each series is the i-th row's
(X cell, Y cell) pair, and the label is the bare field name. -/
theorem plotData_identity_roundtrip (csvData : List Row) (sel : List String)
    (scal : List (String × ℚ)) (xF : String)
    (hx : ∀ r ∈ csvData, ∃ q : ℚ, rowGet r xF = JsValue.num q)
    (hy : ∀ f ∈ sel, ∀ r ∈ csvData, ∃ q : ℚ, rowGet r f = JsValue.num q)
    (hfac : ∀ f ∈ sel, lookupFactor scal f = 1) :
    generatePlotData csvData sel scal xF 1 = sel.map (fun f =>
      { x := csvData.map (fun r => rawNum (rowGet r xF))
        y := csvData.map (fun r => rawNum (rowGet r f))
        mode := "lines"
        name := f }) := by
  unfold generatePlotData
  apply List.map_congr_left
  intro f hf
  simp only [buildTrace, hfac f hf, Series.mk.injEq]
  refine ⟨?_, ?_, by trivial, ?_⟩
  · apply filterMap_eq_map_of_mem
    intro r hr
    obtain ⟨q, hq⟩ := hx r hr
    rw [hq]
    simp [numValue, rawNum]
  · apply filterMap_eq_map_of_mem
    intro r hr
    obtain ⟨q, hq⟩ := hy f hf r hr
    rw [hq]
    simp [numValue, rawNum]
  · rw [formatScalingFactor_one]
    simp

/-- Witness for C8 on the concrete all-numeric dataset `c8Rows` with
X = t and Y = v. -/
theorem plotData_identity_roundtrip_witness :
    generatePlotData c8Rows ["v"] [] "t" 1 = ["v"].map (fun f =>
      { x := c8Rows.map (fun r => rawNum (rowGet r "t"))
        y := c8Rows.map (fun r => rawNum (rowGet r f))
        mode := "lines"
        name := f }) :=
  plotData_identity_roundtrip c8Rows ["v"] [] "t"
    (by
      intro r hr
      fin_cases hr
      exacts [⟨1, rfl⟩, ⟨2, rfl⟩])
    (by
      intro f hf r hr
      fin_cases hf
      fin_cases hr
      exacts [⟨10, rfl⟩, ⟨20, rfl⟩])
    (fun f hf => rfl)

/-- C10: choosing an X-axis field leaves the selected Y fields
unchanged, and when the chosen field is already selected, Generate still
emits a series for it — plotted against itself, with identical x and y
arrays (the X factor taken over by `handleXAxisFieldChange` equals that
field's own Y factor). -/
theorem xAxisChange_frame_self_plot (s : AppState) (field : String)
    (hne : field ≠ "") (hmem : field ∈ s.selectedFields) :
    (handleXAxisFieldChange s field).selectedFields = s.selectedFields ∧
    ∃ ser ∈ ((generateGraph (handleXAxisFieldChange s field)).1).data,
      ser.name = field ++ formatScalingFactor (lookupFactor s.scalingFactors field) ∧
      ser.x = ser.y := by
  refine ⟨rfl, ?_⟩
  have hdata : ((generateGraph (handleXAxisFieldChange s field)).1).data =
      generatePlotData s.csvData s.selectedFields s.scalingFactors field
        (lookupFactor s.scalingFactors field) := by
    simp [generateGraph, handleXAxisFieldChange, hne]
  rw [hdata, generatePlotData]
  exact ⟨buildTrace s.csvData s.scalingFactors field (lookupFactor s.scalingFactors field) field,
    List.mem_map_of_mem _ hmem, rfl, rfl⟩

/-- Witness for C10 on the concrete state `c10State`, whose candidate X
field "a" is already selected as a Y field. -/
theorem xAxisChange_frame_self_plot_witness :
    (handleXAxisFieldChange c10State "a").selectedFields = c10State.selectedFields ∧
    ∃ ser ∈ ((generateGraph (handleXAxisFieldChange c10State "a")).1).data,
      ser.name = "a" ++ formatScalingFactor (lookupFactor c10State.scalingFactors "a") ∧
      ser.x = ser.y :=
  xAxisChange_frame_self_plot c10State "a" (by decide) (by decide)
